import Mathlib

/-!
# Skill Swap Platform — verification of the swap-request engine

Shallow embedding of the backend routers of the skill-swap platform
(`app/routers/swaps.py`, `app/routers/skills.py`, together with the data
model of `app/database.py` and the request schemas of `app/schemas.py`).

Modelling conventions:
* SQLAlchemy rows become Lean structures; only the columns that the
  verified operations read or write are carried (timestamps and profile
  columns are never consulted by the swap, skill or feedback logic).
* The database session becomes an explicit `DB` value threaded through
  each operation; `db.commit()` is the returned `DB`.
* A `raise HTTPException` becomes an error value; since every raise in
  the source happens before any session mutation, each operation returns
  the pair of the (possibly updated) store and an `Except` result, and
  failure paths return the store they were given.
* ORM object membership (`skill in user.skills_offered`) compares by
  primary key, which is how the SQLAlchemy identity map behaves; users
  therefore carry lists of skill ids.
* Pydantic `exclude_unset` partial updates: an absent optional field is
  `none`, a supplied one is `some`.
-/

/-- A user row (`database.py`, class `User`): primary key, the
`is_active` flag consulted by the routers, and the ids of the skills in
the `skills_offered` and `skills_wanted` association tables. -/
structure User where
  id : Nat
  isActive : Bool
  skillsOffered : List Nat
  skillsWanted : List Nat
deriving Repr, DecidableEq

/-- A skill row (`database.py`, class `Skill`). -/
structure Skill where
  id : Nat
  name : String
  category : Option String
  description : Option String
  isApproved : Bool
deriving Repr, DecidableEq

/-- A swap-request row (`database.py`, class `SwapRequest`). -/
structure SwapRequest where
  id : Nat
  requesterId : Nat
  requestedId : Nat
  skillOfferedId : Nat
  skillWantedId : Nat
  message : Option String
  status : String
deriving Repr, DecidableEq

/-- A feedback row (`database.py`, class `Feedback`). -/
structure Feedback where
  id : Nat
  swapRequestId : Nat
  giverId : Nat
  receiverId : Nat
  rating : Int
  comment : Option String
deriving Repr, DecidableEq

/-- The persistent store: the four tables plus autoincrement counters
for primary keys. -/
structure DB where
  users : List User
  skills : List Skill
  requests : List SwapRequest
  feedback : List Feedback
  nextRequestId : Nat
  nextSkillId : Nat
  nextFeedbackId : Nat
deriving Repr, DecidableEq

-- Decidable equality of operation results, for concrete evaluation.
deriving instance DecidableEq for Except

/-- `db.query(User).filter(User.id == uid).first()`. -/
def findUser (db : DB) (uid : Nat) : Option User :=
  db.users.find? (fun u => u.id == uid)

/-- `db.query(Skill).filter(Skill.id == sid).first()`. -/
def findSkill (db : DB) (sid : Nat) : Option Skill :=
  db.skills.find? (fun s => s.id == sid)

/-- `db.query(SwapRequest).filter(SwapRequest.id == rid).first()`. -/
def findRequest (db : DB) (rid : Nat) : Option SwapRequest :=
  db.requests.find? (fun r => r.id == rid)

/-- Request body of `POST /swaps` (`schemas.py`, `SwapRequestCreate`). -/
structure SwapRequestCreate where
  requestedId : Nat
  skillOfferedId : Nat
  skillWantedId : Nat
  message : Option String
deriving Repr, DecidableEq

/-- Request body of `PUT /swaps/{id}` (`schemas.py`, `SwapRequestUpdate`):
`status` is a required plain string — the schema imposes no constraint on
its value — and `message` is optional (`none` = field absent). -/
structure SwapRequestUpdate where
  status : String
  message : Option String
deriving Repr, DecidableEq

/-- The distinct failure sites of `create_swap_request` (`swaps.py`).
HTTP codes in the source: 404 for the two not-found errors, 400 for the
rest; the narrative taxonomy of the spec maps `selfSwap` and the two
skill-ownership errors to InvalidOperation and `duplicatePending` to
Conflict. -/
inductive CreateError where
  | requestedUserNotFound
  | selfSwap
  | skillNotFound
  | requesterLacksSkill
  | requestedLacksSkill
  | duplicatePending
deriving Repr, DecidableEq

/-- `POST /swaps` — `create_swap_request` in `app/routers/swaps.py`,
translated check for check in source order. -/
def create_swap_request (db : DB) (currentUser : User) (p : SwapRequestCreate) :
    DB × Except CreateError SwapRequest :=
  match findUser db p.requestedId with
  | none => (db, .error .requestedUserNotFound)
  | some requestedUser =>
    if !requestedUser.isActive then (db, .error .requestedUserNotFound)
    else if p.requestedId == currentUser.id then (db, .error .selfSwap)
    else
      match findSkill db p.skillOfferedId, findSkill db p.skillWantedId with
      | some skillOffered, some skillWanted =>
        if !(currentUser.skillsOffered.contains skillOffered.id) then
          (db, .error .requesterLacksSkill)
        else if !(requestedUser.skillsOffered.contains skillWanted.id) then
          (db, .error .requestedLacksSkill)
        else
          match db.requests.find? (fun r =>
              r.requesterId == currentUser.id &&
              r.requestedId == p.requestedId &&
              r.skillOfferedId == p.skillOfferedId &&
              r.skillWantedId == p.skillWantedId &&
              r.status == "pending") with
          | some _ => (db, .error .duplicatePending)
          | none =>
            let dbRequest : SwapRequest :=
              { id := db.nextRequestId
                requesterId := currentUser.id
                requestedId := p.requestedId
                skillOfferedId := p.skillOfferedId
                skillWantedId := p.skillWantedId
                message := p.message
                status := "pending" }
            ({ db with requests := db.requests ++ [dbRequest]
                       nextRequestId := db.nextRequestId + 1 },
             .ok dbRequest)
      | _, _ => (db, .error .skillNotFound)

/-- The failure sites of `update_swap_request` (`swaps.py`): 404 and the
three 403 actor gates, which all raise the same Forbidden error. -/
inductive UpdateError where
  | notFound
  | forbidden
deriving Repr, DecidableEq

/-- The final section of `update_swap_request`: apply the supplied fields
(`update_data.dict(exclude_unset=True)`) to the row and commit. `status`
is always supplied (required field); `message` only when present. -/
def applyUpdateFields (db : DB) (sr : SwapRequest) (upd : SwapRequestUpdate) :
    DB × Except UpdateError SwapRequest :=
  let sr' : SwapRequest :=
    { sr with
      status := upd.status
      message := match upd.message with
                 | some m => some m
                 | none => sr.message }
  ({ db with requests := db.requests.map (fun r => if r.id == sr.id then sr' else r) },
   .ok sr')

/-- `PUT /swaps/{id}` — `update_swap_request` in `app/routers/swaps.py`. -/
def update_swap_request (db : DB) (requestId : Nat) (upd : SwapRequestUpdate)
    (currentUser : User) : DB × Except UpdateError SwapRequest :=
  match findRequest db requestId with
  | none => (db, .error .notFound)
  | some swapRequest =>
    if upd.status == "accepted" || upd.status == "rejected" then
      if swapRequest.requestedId != currentUser.id then (db, .error .forbidden)
      else applyUpdateFields db swapRequest upd
    else if upd.status == "cancelled" then
      if swapRequest.requesterId != currentUser.id then (db, .error .forbidden)
      else applyUpdateFields db swapRequest upd
    else if upd.status == "completed" then
      if swapRequest.requesterId != currentUser.id && swapRequest.requestedId != currentUser.id then
        (db, .error .forbidden)
      else applyUpdateFields db swapRequest upd
    else applyUpdateFields db swapRequest upd

/-- The failure sites of `delete_swap_request` (`swaps.py`): 404, the 403
actor gate, and the 400 non-pending gate. -/
inductive DeleteError where
  | notFound
  | forbidden
  | notPending
deriving Repr, DecidableEq

/-- `DELETE /swaps/{id}` — `delete_swap_request` in `app/routers/swaps.py`. -/
def delete_swap_request (db : DB) (requestId : Nat) (currentUser : User) :
    DB × Except DeleteError Unit :=
  match findRequest db requestId with
  | none => (db, .error .notFound)
  | some swapRequest =>
    if swapRequest.requesterId != currentUser.id then (db, .error .forbidden)
    else if swapRequest.status != "pending" then (db, .error .notPending)
    else
      ({ db with requests := db.requests.eraseP (fun r => r.id == swapRequest.id) },
       .ok ())

/-- One step of SQL LIKE matching, fuel-bounded so that the recursion is
structural and kernel-reducible. `likeMatchAux fuel pat s` decides whether
the pattern `pat` matches the whole string `s`, case-insensitively (SQLite
LIKE on ASCII): `%` matches any substring, `_` any single character, any
other character matches itself up to case. Every recursive call shrinks
`pat.length + s.length`, so fuel `pat.length + s.length + 1` is exact. -/
def likeMatchAux : Nat → List Char → List Char → Bool
  | 0, _, _ => false
  | fuel + 1, pat, s =>
    match pat, s with
    | [], [] => true
    | [], _ :: _ => false
    | '%' :: ps, [] => likeMatchAux fuel ps []
    | '%' :: ps, c :: s' =>
        likeMatchAux fuel ps (c :: s') || likeMatchAux fuel ('%' :: ps) s'
    | '_' :: _, [] => false
    | '_' :: ps, _ :: s' => likeMatchAux fuel ps s'
    | _ :: _, [] => false
    | pc :: ps, c :: s' => (pc.toLower == c.toLower) && likeMatchAux fuel ps s'

/-- `column.ilike(pat)`: case-insensitive SQL LIKE of the stored value
against the pattern. -/
def ilike (stored : String) (pat : String) : Bool :=
  likeMatchAux (pat.length + stored.length + 1) pat.toList stored.toList

/-- Helper for Python `str.title()`: a character is uppercased when the
previous character is not alphabetic, lowercased otherwise. -/
def pyTitleAux : Bool → List Char → List Char
  | _, [] => []
  | prevAlpha, c :: cs =>
    (if prevAlpha then c.toLower else c.toUpper) :: pyTitleAux c.isAlpha cs

/-- Python `str.title()` (ASCII behaviour). -/
def pyTitle (s : String) : String :=
  String.mk (pyTitleAux false s.toList)

/-- Python `str.strip()` with no argument: drop leading and trailing
whitespace. -/
def pyStrip (s : String) : String :=
  String.mk (((s.toList.dropWhile Char.isWhitespace).reverse.dropWhile Char.isWhitespace).reverse)

/-- Request body of `POST /skills` (`schemas.py`, `SkillCreate`). -/
structure SkillCreate where
  name : String
  category : Option String
  description : Option String
deriving Repr, DecidableEq

/-- The failure sites of `create_skill` (`skills.py`): HTTP 400, "Skill
exists but is pending approval" — Conflict in the spec taxonomy — and
the unhandled sqlite IntegrityError (surfacing as HTTP 500) that
`db.commit()` raises when the inserted name violates the UNIQUE
constraint on `skills.name` declared in `database.py` and created by
`create_tables()`. -/
inductive SkillError where
  | pendingApproval
  | integrityError
deriving Repr, DecidableEq

/-- `POST /skills` — `create_skill` in `app/routers/skills.py`. The
duplicate probe is `db.query(Skill).filter(Skill.name.ilike(skill.name)).first()`,
i.e. the raw, untrimmed input name used as a case-insensitive LIKE
pattern against stored names; only the insert path trims and
title-cases. An empty `category` string is falsy in Python and is stored
as NULL. The insert commits subject to the UNIQUE constraint on
`skills.name` (sqlite TEXT uniqueness is case-sensitive): when the
trimmed, title-cased name equals a stored name the commit raises an
unhandled IntegrityError and the failed transaction persists nothing. -/
def create_skill (db : DB) (skill : SkillCreate) : DB × Except SkillError Skill :=
  match db.skills.find? (fun s => ilike s.name skill.name) with
  | some existing =>
    if existing.isApproved then (db, .ok existing)
    else (db, .error .pendingApproval)
  | none =>
    let dbSkill : Skill :=
      { id := db.nextSkillId
        name := pyTitle (pyStrip skill.name)
        category := match skill.category with
                    | some c => if c == "" then none else some (pyTitle (pyStrip c))
                    | none => none
        description := skill.description
        isApproved := true }
    if db.skills.any (fun s => s.name == dbSkill.name) then
      (db, .error .integrityError)
    else
      ({ db with skills := db.skills ++ [dbSkill], nextSkillId := db.nextSkillId + 1 },
       .ok dbSkill)

/-- Failure modes of feedback submission: the spec boundary for feedback
is "record or NotFound or Validation". -/
inductive FeedbackError where
  | notFound
  | validation
deriving Repr, DecidableEq

/-- Modelled from the spec: the repository source contains the
`Feedback` table (`database.py`) and the `FeedbackCreate` schema
(`schemas.py`) but no feedback submission route; `submitFeedback` is the
missing operation, taken from the spec contract: the referenced
SwapRequest must exist (NotFound otherwise), giver and receiver must
each be one of the two parties of that request and differ from each
other, and the rating must be an integer between 1 and 5 inclusive
(Validation otherwise); on success an immutable feedback row is
appended. -/
def submitFeedback (db : DB) (requestId giverId receiverId : Nat)
    (rating : Int) (comment : Option String) : DB × Except FeedbackError Feedback :=
  match findRequest db requestId with
  | none => (db, .error .notFound)
  | some sr =>
    if !((giverId == sr.requesterId || giverId == sr.requestedId) &&
         (receiverId == sr.requesterId || receiverId == sr.requestedId) &&
         giverId != receiverId) then
      (db, .error .validation)
    else if rating < 1 ∨ 5 < rating then
      (db, .error .validation)
    else
      let fb : Feedback :=
        { id := db.nextFeedbackId
          swapRequestId := requestId
          giverId := giverId
          receiverId := receiverId
          rating := rating
          comment := comment }
      ({ db with feedback := db.feedback ++ [fb], nextFeedbackId := db.nextFeedbackId + 1 },
       .ok fb)

example : ilike "Guitar" "guitar" = true := by decide
example : ilike "Guitar" " guitar " = false := by decide
example : ilike "Guitar" "gu%r" = true := by decide
example : ilike "Guitar" "g_itar" = true := by decide
example : pyTitle (pyStrip " guitar lessons") = "Guitar Lessons" := by decide

example :
    (create_swap_request
      { users := [{ id := 1, isActive := true, skillsOffered := [10], skillsWanted := [] },
                  { id := 2, isActive := true, skillsOffered := [11], skillsWanted := [] }],
        skills := [{ id := 10, name := "Guitar", category := none, description := none, isApproved := true },
                   { id := 11, name := "Spanish", category := none, description := none, isApproved := true }],
        requests := [], feedback := [],
        nextRequestId := 1, nextSkillId := 12, nextFeedbackId := 1 }
      { id := 1, isActive := true, skillsOffered := [10], skillsWanted := [] }
      { requestedId := 2, skillOfferedId := 10, skillWantedId := 11, message := none }).2
    = .ok { id := 1, requesterId := 1, requestedId := 2, skillOfferedId := 10,
            skillWantedId := 11, message := none, status := "pending" } := rfl

/-!
## Theorems about the update operation (claims C2, C3, C4, C5)
-/

/-- C2: for every existing swap request and every status-update call, the
authorization gate admits exactly the actor prescribed for the target
status — the requested party for `accepted`/`rejected`, the requester for
`cancelled`, either party for `completed` — and every other actor gets
Forbidden. Since nothing after the gate can fail, passing the gate is the
same as succeeding. -/
theorem update_actor_gate (db : DB) (rid : Nat) (upd : SwapRequestUpdate) (u : User)
    (sr : SwapRequest) (h : findRequest db rid = some sr) :
    ((upd.status = "accepted" ∨ upd.status = "rejected") →
      (((update_swap_request db rid upd u).2.isOk = true ↔ sr.requestedId = u.id) ∧
       (sr.requestedId ≠ u.id →
         (update_swap_request db rid upd u).2 = .error .forbidden))) ∧
    (upd.status = "cancelled" →
      (((update_swap_request db rid upd u).2.isOk = true ↔ sr.requesterId = u.id) ∧
       (sr.requesterId ≠ u.id →
         (update_swap_request db rid upd u).2 = .error .forbidden))) ∧
    (upd.status = "completed" →
      (((update_swap_request db rid upd u).2.isOk = true ↔
          (sr.requesterId = u.id ∨ sr.requestedId = u.id)) ∧
       (sr.requesterId ≠ u.id → sr.requestedId ≠ u.id →
         (update_swap_request db rid upd u).2 = .error .forbidden))) := by
  refine ⟨?_, ?_, ?_⟩
  · rintro (hst | hst) <;>
      exact ⟨by by_cases hq : sr.requestedId = u.id <;>
                simp [update_swap_request, h, applyUpdateFields, Except.isOk, Except.toBool,
                      hst, hq],
             fun hq => by simp [update_swap_request, h, applyUpdateFields, hst, hq]⟩
  · intro hst
    constructor
    · by_cases hq : sr.requesterId = u.id <;>
        simp [update_swap_request, h, applyUpdateFields, Except.isOk, Except.toBool, hst, hq]
    · intro hq
      simp [update_swap_request, h, applyUpdateFields, hst, hq]
  · intro hst
    constructor
    · by_cases h1 : sr.requesterId = u.id <;> by_cases h2 : sr.requestedId = u.id <;>
        simp [update_swap_request, h, applyUpdateFields, Except.isOk, Except.toBool, hst, h1, h2]
    · intro h1 h2
      simp [update_swap_request, h, applyUpdateFields, hst, h1, h2]

/-- Witness for `update_actor_gate` at a concrete store: Bob (user 2,
the requested party) may accept request 1, and Carol (user 3) is
forbidden to cancel it. -/
theorem update_actor_gate_witness :
    ((update_swap_request
        { users := [], skills := [],
          requests := [{ id := 1, requesterId := 1, requestedId := 2, skillOfferedId := 10,
                         skillWantedId := 11, message := none, status := "pending" }],
          feedback := [], nextRequestId := 2, nextSkillId := 1, nextFeedbackId := 1 }
        1 { status := "accepted", message := none }
        { id := 2, isActive := true, skillsOffered := [11], skillsWanted := [] }).2.isOk = true) ∧
    ((update_swap_request
        { users := [], skills := [],
          requests := [{ id := 1, requesterId := 1, requestedId := 2, skillOfferedId := 10,
                         skillWantedId := 11, message := none, status := "pending" }],
          feedback := [], nextRequestId := 2, nextSkillId := 1, nextFeedbackId := 1 }
        1 { status := "cancelled", message := none }
        { id := 3, isActive := true, skillsOffered := [], skillsWanted := [] }).2
      = .error .forbidden) := by
  constructor
  · exact ((update_actor_gate
      { users := [], skills := [],
        requests := [{ id := 1, requesterId := 1, requestedId := 2, skillOfferedId := 10,
                       skillWantedId := 11, message := none, status := "pending" }],
        feedback := [], nextRequestId := 2, nextSkillId := 1, nextFeedbackId := 1 }
      1 { status := "accepted", message := none }
      { id := 2, isActive := true, skillsOffered := [11], skillsWanted := [] }
      { id := 1, requesterId := 1, requestedId := 2, skillOfferedId := 10,
        skillWantedId := 11, message := none, status := "pending" }
      rfl).1 (Or.inl rfl)).1.mpr rfl
  · exact ((update_actor_gate
      { users := [], skills := [],
        requests := [{ id := 1, requesterId := 1, requestedId := 2, skillOfferedId := 10,
                       skillWantedId := 11, message := none, status := "pending" }],
        feedback := [], nextRequestId := 2, nextSkillId := 1, nextFeedbackId := 1 }
      1 { status := "cancelled", message := none }
      { id := 3, isActive := true, skillsOffered := [], skillsWanted := [] }
      { id := 1, requesterId := 1, requestedId := 2, skillOfferedId := 10,
        skillWantedId := 11, message := none, status := "pending" }
      rfl).2.1 rfl).2 (by decide)

/-- C3: when the target status lies outside the four governed values
(`accepted`, `rejected`, `cancelled`, `completed`), no authorization
branch of `update_swap_request` fires: any actor — in particular one who
is neither the requester nor the requested party — succeeds, and the
supplied status and message are written to the stored request. -/
theorem update_ungoverned_status_no_auth (db : DB) (rid : Nat)
    (upd : SwapRequestUpdate) (u : User) (sr : SwapRequest)
    (h : findRequest db rid = some sr)
    (h1 : upd.status ≠ "accepted") (h2 : upd.status ≠ "rejected")
    (h3 : upd.status ≠ "cancelled") (h4 : upd.status ≠ "completed") :
    ∃ sr', (update_swap_request db rid upd u).2 = .ok sr' ∧
      sr'.status = upd.status ∧
      sr' ∈ (update_swap_request db rid upd u).1.requests ∧
      (∀ m, upd.message = some m → sr'.message = some m) := by
  have hmem : sr ∈ db.requests := List.mem_of_find?_eq_some h
  have heq : update_swap_request db rid upd u = applyUpdateFields db sr upd := by
    simp [update_swap_request, h, h1, h2, h3, h4]
  rw [heq]
  refine ⟨{ sr with
            status := upd.status
            message := (match upd.message with | some m => some m | none => sr.message) },
          rfl, rfl, ?_, ?_⟩
  · simp only [applyUpdateFields]
    exact List.mem_map.mpr ⟨sr, hmem, by simp⟩
  · intro m hm
    simp [hm]

/-- Witness for `update_ungoverned_status_no_auth`: user 3, a stranger to
request 1 between users 1 and 2, resets its status to `pending`. -/
theorem update_ungoverned_status_no_auth_witness :
    ∃ sr', (update_swap_request
        { users := [], skills := [],
          requests := [{ id := 1, requesterId := 1, requestedId := 2, skillOfferedId := 10,
                         skillWantedId := 11, message := none, status := "accepted" }],
          feedback := [], nextRequestId := 2, nextSkillId := 1, nextFeedbackId := 1 }
        1 { status := "pending", message := none }
        { id := 3, isActive := true, skillsOffered := [], skillsWanted := [] }).2 = .ok sr' ∧
      sr'.status = "pending" ∧
      sr' ∈ (update_swap_request
        { users := [], skills := [],
          requests := [{ id := 1, requesterId := 1, requestedId := 2, skillOfferedId := 10,
                         skillWantedId := 11, message := none, status := "accepted" }],
          feedback := [], nextRequestId := 2, nextSkillId := 1, nextFeedbackId := 1 }
        1 { status := "pending", message := none }
        { id := 3, isActive := true, skillsOffered := [], skillsWanted := [] }).1.requests ∧
      (∀ m, ({ status := "pending", message := none } : SwapRequestUpdate).message = some m →
        sr'.message = some m) :=
  update_ungoverned_status_no_auth
    { users := [], skills := [],
      requests := [{ id := 1, requesterId := 1, requestedId := 2, skillOfferedId := 10,
                     skillWantedId := 11, message := none, status := "accepted" }],
      feedback := [], nextRequestId := 2, nextSkillId := 1, nextFeedbackId := 1 }
    1 { status := "pending", message := none }
    { id := 3, isActive := true, skillsOffered := [], skillsWanted := [] }
    { id := 1, requesterId := 1, requestedId := 2, skillOfferedId := 10,
      skillWantedId := 11, message := none, status := "accepted" }
    rfl (by decide) (by decide) (by decide) (by decide)

/-- C5: the update gate inspects only the actor, never the current
status: an authorized actor may apply any of the four governed target
statuses whatever the current status of the request is — including the
requested party accepting a cancelled request. -/
theorem update_ignores_current_status (db : DB) (rid : Nat)
    (upd : SwapRequestUpdate) (u : User) (sr : SwapRequest)
    (h : findRequest db rid = some sr) :
    ((upd.status = "accepted" ∨ upd.status = "rejected") → sr.requestedId = u.id →
      (update_swap_request db rid upd u).2.isOk = true) ∧
    (upd.status = "cancelled" → sr.requesterId = u.id →
      (update_swap_request db rid upd u).2.isOk = true) ∧
    (upd.status = "completed" → (sr.requesterId = u.id ∨ sr.requestedId = u.id) →
      (update_swap_request db rid upd u).2.isOk = true) := by
  refine ⟨?_, ?_, ?_⟩
  · rintro (hst | hst) hq <;>
      simp [update_swap_request, h, applyUpdateFields, Except.isOk, Except.toBool, hst, hq]
  · intro hst hq
    simp [update_swap_request, h, applyUpdateFields, Except.isOk, Except.toBool, hst, hq]
  · rintro hst (hq | hq) <;>
      simp [update_swap_request, h, applyUpdateFields, Except.isOk, Except.toBool, hst, hq]

/-- Witness for `update_ignores_current_status`: the scenario flagged in
the spec — user 2, the requested party, accepts request 1 even though its
current status is `cancelled`. -/
theorem update_ignores_current_status_witness :
    (update_swap_request
      { users := [], skills := [],
        requests := [{ id := 1, requesterId := 1, requestedId := 2, skillOfferedId := 10,
                       skillWantedId := 11, message := none, status := "cancelled" }],
        feedback := [], nextRequestId := 2, nextSkillId := 1, nextFeedbackId := 1 }
      1 { status := "accepted", message := none }
      { id := 2, isActive := true, skillsOffered := [11], skillsWanted := [] }).2.isOk = true :=
  (update_ignores_current_status
    { users := [], skills := [],
      requests := [{ id := 1, requesterId := 1, requestedId := 2, skillOfferedId := 10,
                     skillWantedId := 11, message := none, status := "cancelled" }],
      feedback := [], nextRequestId := 2, nextSkillId := 1, nextFeedbackId := 1 }
    1 { status := "accepted", message := none }
    { id := 2, isActive := true, skillsOffered := [11], skillsWanted := [] }
    { id := 1, requesterId := 1, requestedId := 2, skillOfferedId := 10,
      skillWantedId := 11, message := none, status := "cancelled" }
    rfl).1 (Or.inl rfl) rfl

/-- C4 fails on the code: the update schema never validates the status
string, so an update with status `banana` — outside the documented set
{pending, accepted, rejected, completed, cancelled} — succeeds (bypassing
every actor gate, since `banana` matches no governed value) and is
stored. Evaluation at the failing input: a stranger (user 3) sets status
`banana` on request 1 and the store then holds that status. -/
theorem update_stores_undocumented_status :
    ((update_swap_request
        { users := [], skills := [],
          requests := [{ id := 1, requesterId := 1, requestedId := 2, skillOfferedId := 10,
                         skillWantedId := 11, message := none, status := "pending" }],
          feedback := [], nextRequestId := 2, nextSkillId := 1, nextFeedbackId := 1 }
        1 { status := "banana", message := none }
        { id := 3, isActive := true, skillsOffered := [], skillsWanted := [] }).2.isOk = true) ∧
    ((update_swap_request
        { users := [], skills := [],
          requests := [{ id := 1, requesterId := 1, requestedId := 2, skillOfferedId := 10,
                         skillWantedId := 11, message := none, status := "pending" }],
          feedback := [], nextRequestId := 2, nextSkillId := 1, nextFeedbackId := 1 }
        1 { status := "banana", message := none }
        { id := 3, isActive := true, skillsOffered := [], skillsWanted := [] }).1.requests.map
          (fun r => r.status) = ["banana"]) := by
  constructor
  · rfl
  · rfl

/-!
## Theorems about request creation (claims C1, C6)
-/

/-- Two swap requests propose the same (requester, requested,
skillOffered, skillWanted) tuple. -/
def sameTuple (r1 r2 : SwapRequest) : Prop :=
  r1.requesterId = r2.requesterId ∧ r1.requestedId = r2.requestedId ∧
  r1.skillOfferedId = r2.skillOfferedId ∧ r1.skillWantedId = r2.skillWantedId

/-- The store invariant of the spec: no two pending requests share a
tuple. -/
def atMostOnePending (db : DB) : Prop :=
  db.requests.Pairwise
    (fun r1 r2 => ¬(r1.status = "pending" ∧ r2.status = "pending" ∧ sameTuple r1 r2))

/-- C1 as stated is false on the code: the duplicate-pending check is the
LAST validation of `create_swap_request`, so when a pending duplicate
exists but an earlier check fails, the call fails with that earlier error
instead of Conflict. Concretely: request 1 is a pending (1, 2, 10, 11)
proposal, user 2 has since been deactivated, and user 1 repeats the same
proposal — the call fails with the requested-user-not-found error (HTTP
404), not with the duplicate-pending Conflict. -/
theorem create_duplicate_not_always_conflict :
    (∃ r ∈ ({ users := [{ id := 1, isActive := true, skillsOffered := [10], skillsWanted := [] },
                        { id := 2, isActive := false, skillsOffered := [11], skillsWanted := [] }],
              skills := [{ id := 10, name := "Guitar", category := none, description := none,
                           isApproved := true },
                         { id := 11, name := "Spanish", category := none, description := none,
                           isApproved := true }],
              requests := [{ id := 1, requesterId := 1, requestedId := 2, skillOfferedId := 10,
                             skillWantedId := 11, message := none, status := "pending" }],
              feedback := [], nextRequestId := 2, nextSkillId := 12,
              nextFeedbackId := 1 } : DB).requests,
        r.requesterId = 1 ∧ r.requestedId = 2 ∧ r.skillOfferedId = 10 ∧
        r.skillWantedId = 11 ∧ r.status = "pending") ∧
    (create_swap_request
        { users := [{ id := 1, isActive := true, skillsOffered := [10], skillsWanted := [] },
                    { id := 2, isActive := false, skillsOffered := [11], skillsWanted := [] }],
          skills := [{ id := 10, name := "Guitar", category := none, description := none,
                       isApproved := true },
                     { id := 11, name := "Spanish", category := none, description := none,
                       isApproved := true }],
          requests := [{ id := 1, requesterId := 1, requestedId := 2, skillOfferedId := 10,
                         skillWantedId := 11, message := none, status := "pending" }],
          feedback := [], nextRequestId := 2, nextSkillId := 12, nextFeedbackId := 1 }
        { id := 1, isActive := true, skillsOffered := [10], skillsWanted := [] }
        { requestedId := 2, skillOfferedId := 10, skillWantedId := 11, message := none }).2
      = .error .requestedUserNotFound ∧
    CreateError.requestedUserNotFound ≠ CreateError.duplicatePending :=
  ⟨by decide, rfl, by decide⟩

/-- C1 amended: when a pending request with the identical tuple already
exists, `create_swap_request` always fails and stores nothing; the error
is the duplicate-pending Conflict whenever the earlier validation steps
(requested user active, not self, skills exist, both ownership checks)
pass, and the earlier error otherwise. Consequently the creation
operation preserves the at-most-one-pending-per-tuple invariant. -/
theorem create_duplicate_pending_always_fails (db : DB) (u : User) (p : SwapRequestCreate) :
    ((∃ r ∈ db.requests, r.requesterId = u.id ∧ r.requestedId = p.requestedId ∧
        r.skillOfferedId = p.skillOfferedId ∧ r.skillWantedId = p.skillWantedId ∧
        r.status = "pending") →
      ((create_swap_request db u p).2.isOk = false ∧
       (create_swap_request db u p).1 = db ∧
       (∀ ru so sw, findUser db p.requestedId = some ru → ru.isActive = true →
          p.requestedId ≠ u.id →
          findSkill db p.skillOfferedId = some so →
          findSkill db p.skillWantedId = some sw →
          u.skillsOffered.contains so.id = true →
          ru.skillsOffered.contains sw.id = true →
          (create_swap_request db u p).2 = .error .duplicatePending))) ∧
    (atMostOnePending db → atMostOnePending (create_swap_request db u p).1) := by
  constructor
  · rintro ⟨r, hmem, hreq, hrqd, hso, hsw, hst⟩
    have hfind : db.requests.find? (fun r =>
        r.requesterId == u.id &&
        r.requestedId == p.requestedId &&
        r.skillOfferedId == p.skillOfferedId &&
        r.skillWantedId == p.skillWantedId &&
        r.status == "pending") ≠ none := by
      intro hnone
      have hall := List.find?_eq_none.mp hnone r hmem
      simp [hreq, hrqd, hso, hsw, hst] at hall
    obtain ⟨rr, hrr⟩ := Option.ne_none_iff_exists'.mp hfind
    refine ⟨?_, ?_, ?_⟩
    · simp only [create_swap_request]
      repeat' split
      all_goals simp_all [Except.isOk, Except.toBool]
    · simp only [create_swap_request]
      repeat' split
      all_goals simp_all
    · intro ru so sw hru hact hne hso2 hsw2 hc1 hc2
      have hm1 : so.id ∈ u.skillsOffered := by simpa using hc1
      have hm2 : sw.id ∈ ru.skillsOffered := by simpa using hc2
      simp [create_swap_request, hru, hso2, hsw2, hact, hne, hm1, hm2, hrr]
  · intro hinv
    simp only [atMostOnePending] at hinv ⊢
    simp only [create_swap_request]
    repeat' split
    all_goals try exact hinv
    next hnone =>
      rw [List.pairwise_append]
      refine ⟨hinv, by simp, ?_⟩
      intro a ha b hb
      simp only [List.mem_singleton] at hb
      subst hb
      rintro ⟨hpa, _hpb, hsame⟩
      simp only [sameTuple] at hsame
      obtain ⟨t1, t2, t3, t4⟩ := hsame
      have hnp := List.find?_eq_none.mp hnone a ha
      exact hnp (by simp [t1, t2, t3, t4, hpa])

/-- Witness for `create_duplicate_pending_always_fails`: repeating the
pending (1, 2, 10, 11) proposal against an intact store fails, stores
nothing, and the store keeps its invariant. -/
theorem create_duplicate_pending_always_fails_witness :
    ((create_swap_request
        { users := [{ id := 1, isActive := true, skillsOffered := [10], skillsWanted := [] },
                    { id := 2, isActive := true, skillsOffered := [11], skillsWanted := [] }],
          skills := [{ id := 10, name := "Guitar", category := none, description := none,
                       isApproved := true },
                     { id := 11, name := "Spanish", category := none, description := none,
                       isApproved := true }],
          requests := [{ id := 1, requesterId := 1, requestedId := 2, skillOfferedId := 10,
                         skillWantedId := 11, message := none, status := "pending" }],
          feedback := [], nextRequestId := 2, nextSkillId := 12, nextFeedbackId := 1 }
        { id := 1, isActive := true, skillsOffered := [10], skillsWanted := [] }
        { requestedId := 2, skillOfferedId := 10, skillWantedId := 11, message := none }).2.isOk
      = false) ∧
    atMostOnePending
      (create_swap_request
        { users := [{ id := 1, isActive := true, skillsOffered := [10], skillsWanted := [] },
                    { id := 2, isActive := true, skillsOffered := [11], skillsWanted := [] }],
          skills := [{ id := 10, name := "Guitar", category := none, description := none,
                       isApproved := true },
                     { id := 11, name := "Spanish", category := none, description := none,
                       isApproved := true }],
          requests := [{ id := 1, requesterId := 1, requestedId := 2, skillOfferedId := 10,
                         skillWantedId := 11, message := none, status := "pending" }],
          feedback := [], nextRequestId := 2, nextSkillId := 12, nextFeedbackId := 1 }
        { id := 1, isActive := true, skillsOffered := [10], skillsWanted := [] }
        { requestedId := 2, skillOfferedId := 10, skillWantedId := 11, message := none }).1 := by
  constructor
  · exact ((create_duplicate_pending_always_fails
      { users := [{ id := 1, isActive := true, skillsOffered := [10], skillsWanted := [] },
                  { id := 2, isActive := true, skillsOffered := [11], skillsWanted := [] }],
        skills := [{ id := 10, name := "Guitar", category := none, description := none,
                     isApproved := true },
                   { id := 11, name := "Spanish", category := none, description := none,
                     isApproved := true }],
        requests := [{ id := 1, requesterId := 1, requestedId := 2, skillOfferedId := 10,
                       skillWantedId := 11, message := none, status := "pending" }],
        feedback := [], nextRequestId := 2, nextSkillId := 12, nextFeedbackId := 1 }
      { id := 1, isActive := true, skillsOffered := [10], skillsWanted := [] }
      { requestedId := 2, skillOfferedId := 10, skillWantedId := 11, message := none }).1
      (by decide)).1
  · exact (create_duplicate_pending_always_fails
      { users := [{ id := 1, isActive := true, skillsOffered := [10], skillsWanted := [] },
                  { id := 2, isActive := true, skillsOffered := [11], skillsWanted := [] }],
        skills := [{ id := 10, name := "Guitar", category := none, description := none,
                     isApproved := true },
                   { id := 11, name := "Spanish", category := none, description := none,
                     isApproved := true }],
        requests := [{ id := 1, requesterId := 1, requestedId := 2, skillOfferedId := 10,
                       skillWantedId := 11, message := none, status := "pending" }],
        feedback := [], nextRequestId := 2, nextSkillId := 12, nextFeedbackId := 1 }
      { id := 1, isActive := true, skillsOffered := [10], skillsWanted := [] }
      { requestedId := 2, skillOfferedId := 10, skillWantedId := 11, message := none }).2
      (by simp [atMostOnePending])

/-- C6: with every other creation precondition met — requested user
exists and is active, the two users are distinct, both skills resolve,
and no pending duplicate exists — creation succeeds exactly when the
requester offers the offered skill AND the requested party offers the
wanted skill; each missing membership fails with the corresponding
invalid-operation error and stores nothing. -/
theorem create_skill_ownership_gate (db : DB) (u : User) (p : SwapRequestCreate)
    (ru : User) (so sw : Skill)
    (hru : findUser db p.requestedId = some ru) (hact : ru.isActive = true)
    (hne : p.requestedId ≠ u.id)
    (hso : findSkill db p.skillOfferedId = some so)
    (hsw : findSkill db p.skillWantedId = some sw)
    (hnodup : ∀ r ∈ db.requests,
      ¬(r.requesterId = u.id ∧ r.requestedId = p.requestedId ∧
        r.skillOfferedId = p.skillOfferedId ∧ r.skillWantedId = p.skillWantedId ∧
        r.status = "pending")) :
    ((create_swap_request db u p).2.isOk = true ↔
      (so.id ∈ u.skillsOffered ∧ sw.id ∈ ru.skillsOffered)) ∧
    (so.id ∉ u.skillsOffered →
      (create_swap_request db u p).2 = .error .requesterLacksSkill ∧
      (create_swap_request db u p).1 = db) ∧
    (so.id ∈ u.skillsOffered → sw.id ∉ ru.skillsOffered →
      (create_swap_request db u p).2 = .error .requestedLacksSkill ∧
      (create_swap_request db u p).1 = db) := by
  have hnone : db.requests.find? (fun r =>
      r.requesterId == u.id &&
      r.requestedId == p.requestedId &&
      r.skillOfferedId == p.skillOfferedId &&
      r.skillWantedId == p.skillWantedId &&
      r.status == "pending") = none := by
    rw [List.find?_eq_none]
    intro r hr hpred
    simp only [Bool.and_eq_true, beq_iff_eq] at hpred
    exact hnodup r hr ⟨hpred.1.1.1.1, hpred.1.1.1.2, hpred.1.1.2, hpred.1.2, hpred.2⟩
  refine ⟨?_, ?_, ?_⟩
  · by_cases hm1 : so.id ∈ u.skillsOffered <;> by_cases hm2 : sw.id ∈ ru.skillsOffered <;>
      simp [create_swap_request, hru, hso, hsw, hact, hne, hm1, hm2, hnone,
            Except.isOk, Except.toBool]
  · intro hm1
    constructor <;> simp [create_swap_request, hru, hso, hsw, hact, hne, hm1]
  · intro hm1 hm2
    constructor <;> simp [create_swap_request, hru, hso, hsw, hact, hne, hm1, hm2]

/-- Witness for `create_skill_ownership_gate`: Carol (user 3) does not
offer skill 10, so her attempt to propose teaching it fails with the
requester-lacks-skill error and the store is untouched; when she does
offer it, the same call succeeds. -/
theorem create_skill_ownership_gate_witness :
    ((create_swap_request
        { users := [{ id := 3, isActive := true, skillsOffered := [], skillsWanted := [] },
                    { id := 2, isActive := true, skillsOffered := [11], skillsWanted := [] }],
          skills := [{ id := 10, name := "Guitar", category := none, description := none,
                       isApproved := true },
                     { id := 11, name := "Spanish", category := none, description := none,
                       isApproved := true }],
          requests := [], feedback := [], nextRequestId := 1, nextSkillId := 12,
          nextFeedbackId := 1 }
        { id := 3, isActive := true, skillsOffered := [], skillsWanted := [] }
        { requestedId := 2, skillOfferedId := 10, skillWantedId := 11, message := none }).2
      = .error .requesterLacksSkill) ∧
    ((create_swap_request
        { users := [{ id := 3, isActive := true, skillsOffered := [], skillsWanted := [] },
                    { id := 2, isActive := true, skillsOffered := [11], skillsWanted := [] }],
          skills := [{ id := 10, name := "Guitar", category := none, description := none,
                       isApproved := true },
                     { id := 11, name := "Spanish", category := none, description := none,
                       isApproved := true }],
          requests := [], feedback := [], nextRequestId := 1, nextSkillId := 12,
          nextFeedbackId := 1 }
        { id := 3, isActive := true, skillsOffered := [10], skillsWanted := [] }
        { requestedId := 2, skillOfferedId := 10, skillWantedId := 11, message := none }).2.isOk
      = true) := by
  constructor
  · exact ((create_skill_ownership_gate
      { users := [{ id := 3, isActive := true, skillsOffered := [], skillsWanted := [] },
                  { id := 2, isActive := true, skillsOffered := [11], skillsWanted := [] }],
        skills := [{ id := 10, name := "Guitar", category := none, description := none,
                     isApproved := true },
                   { id := 11, name := "Spanish", category := none, description := none,
                     isApproved := true }],
        requests := [], feedback := [], nextRequestId := 1, nextSkillId := 12,
        nextFeedbackId := 1 }
      { id := 3, isActive := true, skillsOffered := [], skillsWanted := [] }
      { requestedId := 2, skillOfferedId := 10, skillWantedId := 11, message := none }
      { id := 2, isActive := true, skillsOffered := [11], skillsWanted := [] }
      { id := 10, name := "Guitar", category := none, description := none, isApproved := true }
      { id := 11, name := "Spanish", category := none, description := none, isApproved := true }
      rfl rfl (by decide) rfl rfl (by decide)).2.1 (by decide)).1
  · exact (create_skill_ownership_gate
      { users := [{ id := 3, isActive := true, skillsOffered := [], skillsWanted := [] },
                  { id := 2, isActive := true, skillsOffered := [11], skillsWanted := [] }],
        skills := [{ id := 10, name := "Guitar", category := none, description := none,
                     isApproved := true },
                   { id := 11, name := "Spanish", category := none, description := none,
                     isApproved := true }],
        requests := [], feedback := [], nextRequestId := 1, nextSkillId := 12,
        nextFeedbackId := 1 }
      { id := 3, isActive := true, skillsOffered := [10], skillsWanted := [] }
      { requestedId := 2, skillOfferedId := 10, skillWantedId := 11, message := none }
      { id := 2, isActive := true, skillsOffered := [11], skillsWanted := [] }
      { id := 10, name := "Guitar", category := none, description := none, isApproved := true }
      { id := 11, name := "Spanish", category := none, description := none, isApproved := true }
      rfl rfl (by decide) rfl rfl (by decide)).1.mpr (by decide)

/-!
## Theorems about deletion and failure atomicity (claims C7, C9)
-/

/-- C7: `delete_swap_request` succeeds exactly when the actor is the
requester and the status is pending; a non-requester gets Forbidden even
on a non-pending request (the actor check comes first), the requester
gets the invalid-operation error on a non-pending request, and every
failure leaves the stored request in place. -/
theorem delete_gating (db : DB) (rid : Nat) (u : User) (sr : SwapRequest)
    (h : findRequest db rid = some sr) :
    ((delete_swap_request db rid u).2.isOk = true ↔
      (sr.requesterId = u.id ∧ sr.status = "pending")) ∧
    (sr.requesterId ≠ u.id → (delete_swap_request db rid u).2 = .error .forbidden) ∧
    (sr.requesterId = u.id → sr.status ≠ "pending" →
      (delete_swap_request db rid u).2 = .error .notPending) ∧
    ((delete_swap_request db rid u).2.isOk = false →
      (delete_swap_request db rid u).1 = db ∧ sr ∈ (delete_swap_request db rid u).1.requests) := by
  have hmem : sr ∈ db.requests := List.mem_of_find?_eq_some h
  refine ⟨?_, ?_, ?_, ?_⟩
  · by_cases h1 : sr.requesterId = u.id <;> by_cases h2 : sr.status = "pending" <;>
      simp [delete_swap_request, h, h1, h2, Except.isOk, Except.toBool]
  · intro h1
    simp [delete_swap_request, h, h1]
  · intro h1 h2
    simp [delete_swap_request, h, h1, h2]
  · intro hfail
    by_cases h1 : sr.requesterId = u.id <;> by_cases h2 : sr.status = "pending"
    · simp [delete_swap_request, h, h1, h2, Except.isOk, Except.toBool] at hfail
    · refine ⟨by simp [delete_swap_request, h, h1, h2], ?_⟩
      simp [delete_swap_request, h, h1, h2, hmem]
    · refine ⟨by simp [delete_swap_request, h, h1], ?_⟩
      simp [delete_swap_request, h, h1, hmem]
    · refine ⟨by simp [delete_swap_request, h, h1], ?_⟩
      simp [delete_swap_request, h, h1, hmem]

/-- Witness for `delete_gating`: user 2 (not the requester) cannot
delete pending request 1; user 1 can, and the requester cannot delete it
once accepted. -/
theorem delete_gating_witness :
    ((delete_swap_request
        { users := [], skills := [],
          requests := [{ id := 1, requesterId := 1, requestedId := 2, skillOfferedId := 10,
                         skillWantedId := 11, message := none, status := "pending" }],
          feedback := [], nextRequestId := 2, nextSkillId := 1, nextFeedbackId := 1 }
        1 { id := 2, isActive := true, skillsOffered := [], skillsWanted := [] }).2
      = .error .forbidden) ∧
    ((delete_swap_request
        { users := [], skills := [],
          requests := [{ id := 1, requesterId := 1, requestedId := 2, skillOfferedId := 10,
                         skillWantedId := 11, message := none, status := "pending" }],
          feedback := [], nextRequestId := 2, nextSkillId := 1, nextFeedbackId := 1 }
        1 { id := 1, isActive := true, skillsOffered := [], skillsWanted := [] }).2.isOk
      = true) ∧
    ((delete_swap_request
        { users := [], skills := [],
          requests := [{ id := 1, requesterId := 1, requestedId := 2, skillOfferedId := 10,
                         skillWantedId := 11, message := none, status := "accepted" }],
          feedback := [], nextRequestId := 2, nextSkillId := 1, nextFeedbackId := 1 }
        1 { id := 1, isActive := true, skillsOffered := [], skillsWanted := [] }).2
      = .error .notPending) := by
  refine ⟨?_, ?_, ?_⟩
  · exact (delete_gating
      { users := [], skills := [],
        requests := [{ id := 1, requesterId := 1, requestedId := 2, skillOfferedId := 10,
                       skillWantedId := 11, message := none, status := "pending" }],
        feedback := [], nextRequestId := 2, nextSkillId := 1, nextFeedbackId := 1 }
      1 { id := 2, isActive := true, skillsOffered := [], skillsWanted := [] }
      { id := 1, requesterId := 1, requestedId := 2, skillOfferedId := 10,
        skillWantedId := 11, message := none, status := "pending" }
      rfl).2.1 (by decide)
  · exact (delete_gating
      { users := [], skills := [],
        requests := [{ id := 1, requesterId := 1, requestedId := 2, skillOfferedId := 10,
                       skillWantedId := 11, message := none, status := "pending" }],
        feedback := [], nextRequestId := 2, nextSkillId := 1, nextFeedbackId := 1 }
      1 { id := 1, isActive := true, skillsOffered := [], skillsWanted := [] }
      { id := 1, requesterId := 1, requestedId := 2, skillOfferedId := 10,
        skillWantedId := 11, message := none, status := "pending" }
      rfl).1.mpr ⟨rfl, rfl⟩
  · exact ((delete_gating
      { users := [], skills := [],
        requests := [{ id := 1, requesterId := 1, requestedId := 2, skillOfferedId := 10,
                       skillWantedId := 11, message := none, status := "accepted" }],
        feedback := [], nextRequestId := 2, nextSkillId := 1, nextFeedbackId := 1 }
      1 { id := 1, isActive := true, skillsOffered := [], skillsWanted := [] }
      { id := 1, requesterId := 1, requestedId := 2, skillOfferedId := 10,
        skillWantedId := 11, message := none, status := "accepted" }
      rfl).2.2.1 rfl (by decide))

/-- C9: every failing call of the three swap-engine operations leaves the
store exactly as it was — all raises precede any mutation. -/
theorem swap_engine_failure_atomicity (db : DB) (u : User) (p : SwapRequestCreate)
    (rid : Nat) (upd : SwapRequestUpdate) :
    ((create_swap_request db u p).2.isOk = false → (create_swap_request db u p).1 = db) ∧
    ((update_swap_request db rid upd u).2.isOk = false →
      (update_swap_request db rid upd u).1 = db) ∧
    ((delete_swap_request db rid u).2.isOk = false → (delete_swap_request db rid u).1 = db) := by
  refine ⟨?_, ?_, ?_⟩
  · intro hfail
    simp only [create_swap_request] at hfail ⊢
    repeat' split
    all_goals simp_all [Except.isOk, Except.toBool]
  · intro hfail
    simp only [update_swap_request, applyUpdateFields] at hfail ⊢
    repeat' split
    all_goals simp_all [Except.isOk, Except.toBool]
  · intro hfail
    simp only [delete_swap_request] at hfail ⊢
    repeat' split
    all_goals simp_all [Except.isOk, Except.toBool]

/-- Witness for `swap_engine_failure_atomicity` at concrete failing
calls: a self-swap creation, a forbidden update and a forbidden deletion
all return the store unchanged. -/
theorem swap_engine_failure_atomicity_witness :
    ((create_swap_request
        { users := [{ id := 1, isActive := true, skillsOffered := [10], skillsWanted := [] }],
          skills := [], requests := [], feedback := [],
          nextRequestId := 1, nextSkillId := 1, nextFeedbackId := 1 }
        { id := 1, isActive := true, skillsOffered := [10], skillsWanted := [] }
        { requestedId := 1, skillOfferedId := 10, skillWantedId := 10, message := none }).1
      = { users := [{ id := 1, isActive := true, skillsOffered := [10], skillsWanted := [] }],
          skills := [], requests := [], feedback := [],
          nextRequestId := 1, nextSkillId := 1, nextFeedbackId := 1 }) ∧
    ((update_swap_request
        { users := [], skills := [],
          requests := [{ id := 1, requesterId := 1, requestedId := 2, skillOfferedId := 10,
                         skillWantedId := 11, message := none, status := "pending" }],
          feedback := [], nextRequestId := 2, nextSkillId := 1, nextFeedbackId := 1 }
        1 { status := "accepted", message := none }
        { id := 1, isActive := true, skillsOffered := [], skillsWanted := [] }).1
      = { users := [], skills := [],
          requests := [{ id := 1, requesterId := 1, requestedId := 2, skillOfferedId := 10,
                         skillWantedId := 11, message := none, status := "pending" }],
          feedback := [], nextRequestId := 2, nextSkillId := 1, nextFeedbackId := 1 }) ∧
    ((delete_swap_request
        { users := [], skills := [],
          requests := [{ id := 1, requesterId := 1, requestedId := 2, skillOfferedId := 10,
                         skillWantedId := 11, message := none, status := "pending" }],
          feedback := [], nextRequestId := 2, nextSkillId := 1, nextFeedbackId := 1 }
        1 { id := 2, isActive := true, skillsOffered := [], skillsWanted := [] }).1
      = { users := [], skills := [],
          requests := [{ id := 1, requesterId := 1, requestedId := 2, skillOfferedId := 10,
                         skillWantedId := 11, message := none, status := "pending" }],
          feedback := [], nextRequestId := 2, nextSkillId := 1, nextFeedbackId := 1 }) := by
  refine ⟨?_, ?_, ?_⟩
  · exact (swap_engine_failure_atomicity
      { users := [{ id := 1, isActive := true, skillsOffered := [10], skillsWanted := [] }],
        skills := [], requests := [], feedback := [],
        nextRequestId := 1, nextSkillId := 1, nextFeedbackId := 1 }
      { id := 1, isActive := true, skillsOffered := [10], skillsWanted := [] }
      { requestedId := 1, skillOfferedId := 10, skillWantedId := 10, message := none }
      1 { status := "accepted", message := none }).1 rfl
  · exact (swap_engine_failure_atomicity
      { users := [], skills := [],
        requests := [{ id := 1, requesterId := 1, requestedId := 2, skillOfferedId := 10,
                       skillWantedId := 11, message := none, status := "pending" }],
        feedback := [], nextRequestId := 2, nextSkillId := 1, nextFeedbackId := 1 }
      { id := 1, isActive := true, skillsOffered := [], skillsWanted := [] }
      { requestedId := 1, skillOfferedId := 10, skillWantedId := 10, message := none }
      1 { status := "accepted", message := none }).2.1 rfl
  · exact (swap_engine_failure_atomicity
      { users := [], skills := [],
        requests := [{ id := 1, requesterId := 1, requestedId := 2, skillOfferedId := 10,
                       skillWantedId := 11, message := none, status := "pending" }],
        feedback := [], nextRequestId := 2, nextSkillId := 1, nextFeedbackId := 1 }
      { id := 2, isActive := true, skillsOffered := [], skillsWanted := [] }
      { requestedId := 1, skillOfferedId := 10, skillWantedId := 10, message := none }
      1 { status := "accepted", message := none }).2.2 rfl

/-!
## Theorems about skill creation (claim C8) and feedback (claim C10)
-/

/-- C8 as stated is false on the code: the duplicate probe feeds the
RAW input name to `ilike`, so a name that differs from an existing
approved skill only by surrounding whitespace is NOT matched; the
endpoint then attempts to insert the trimmed, title-cased name, and the
UNIQUE constraint on `skills.name` makes the commit raise an unhandled
IntegrityError (HTTP 500) instead of returning the existing skill.
Concretely: with approved skill "Guitar" stored, creating " guitar " —
whose normalized (trimmed, title-cased) form is exactly "Guitar" — does
not return the existing skill unchanged as the claim requires; it fails
with the integrity error, and the catalog is left as it was. -/
theorem skill_create_not_normalized_match :
    (pyTitle (pyStrip " guitar ") = "Guitar") ∧
    ((create_skill
        { users := [], skills := [{ id := 1, name := "Guitar", category := none,
                                    description := none, isApproved := true }],
          requests := [], feedback := [], nextRequestId := 1, nextSkillId := 2,
          nextFeedbackId := 1 }
        { name := " guitar ", category := none, description := none }).2
      = .error .integrityError) ∧
    ((create_skill
        { users := [], skills := [{ id := 1, name := "Guitar", category := none,
                                    description := none, isApproved := true }],
          requests := [], feedback := [], nextRequestId := 1, nextSkillId := 2,
          nextFeedbackId := 1 }
        { name := " guitar ", category := none, description := none }).2
      ≠ .ok { id := 1, name := "Guitar", category := none, description := none,
              isApproved := true }) ∧
    ((create_skill
        { users := [], skills := [{ id := 1, name := "Guitar", category := none,
                                    description := none, isApproved := true }],
          requests := [], feedback := [], nextRequestId := 1, nextSkillId := 2,
          nextFeedbackId := 1 }
        { name := " guitar ", category := none, description := none }).1
      = { users := [], skills := [{ id := 1, name := "Guitar", category := none,
                                    description := none, isApproved := true }],
          requests := [], feedback := [], nextRequestId := 1, nextSkillId := 2,
          nextFeedbackId := 1 }) :=
  ⟨by decide, rfl, by decide, rfl⟩

/-- C8 amended: the duplicate test is a case-insensitive SQL LIKE of the
stored names against the raw, untrimmed input name (so wildcards apply
and surrounding whitespace defeats the match, even though the normalized
forms coincide). When the first such match is approved it is returned
unchanged and nothing is stored; when it is unapproved the call fails
with Conflict and nothing is stored; when there is no match an insert of
the trimmed, title-cased name and category is attempted: it stores a new
auto-approved skill when no stored name equals the normalized name, and
otherwise — in particular when the input differs from a stored skill
only by surrounding whitespace — the UNIQUE constraint on the name
column makes the commit fail with an unhandled IntegrityError and
nothing is stored. -/
theorem skill_create_raw_ilike_match (db : DB) (p : SkillCreate) :
    (∀ s, db.skills.find? (fun t => ilike t.name p.name) = some s →
      (s.isApproved = true →
        (create_skill db p).2 = .ok s ∧ (create_skill db p).1 = db) ∧
      (s.isApproved = false →
        (create_skill db p).2 = .error .pendingApproval ∧ (create_skill db p).1 = db)) ∧
    ((∀ s ∈ db.skills, ilike s.name p.name = false) →
      ((∀ s ∈ db.skills, s.name ≠ pyTitle (pyStrip p.name)) →
        ∃ sk, (create_skill db p).2 = .ok sk ∧
          sk.name = pyTitle (pyStrip p.name) ∧
          sk.isApproved = true ∧
          (create_skill db p).1.skills = db.skills ++ [sk]) ∧
      ((∃ s ∈ db.skills, s.name = pyTitle (pyStrip p.name)) →
        (create_skill db p).2 = .error .integrityError ∧ (create_skill db p).1 = db)) := by
  constructor
  · intro s hs
    constructor <;> intro happ <;> constructor <;> simp [create_skill, hs, happ]
  · intro hno
    have hfind : db.skills.find? (fun t => ilike t.name p.name) = none := by
      rw [List.find?_eq_none]
      intro t ht
      simp [hno t ht]
    constructor
    · intro hfresh
      have hany : db.skills.any (fun s => s.name == pyTitle (pyStrip p.name)) = false := by
        rw [List.any_eq_false]
        intro t ht
        simp [hfresh t ht]
      refine ⟨{ id := db.nextSkillId
                name := pyTitle (pyStrip p.name)
                category := (match p.category with
                             | some c => if c == "" then none else some (pyTitle (pyStrip c))
                             | none => none)
                description := p.description
                isApproved := true }, ?_, rfl, rfl, ?_⟩
      · simp [create_skill, hfind, hany]
      · simp [create_skill, hfind, hany]
    · rintro ⟨s, hsmem, hsname⟩
      have hany : db.skills.any (fun s => s.name == pyTitle (pyStrip p.name)) = true :=
        List.any_eq_true.mpr ⟨s, hsmem, by simp [hsname]⟩
      constructor <;> simp [create_skill, hfind, hany]

/-- Witness for `skill_create_raw_ilike_match`: creating "guitar" when
approved skill "Guitar" exists returns the stored skill and leaves the
catalog unchanged, while creating " guitar " misses the LIKE probe and
fails on the UNIQUE name constraint. -/
theorem skill_create_raw_ilike_match_witness :
    ((create_skill
        { users := [], skills := [{ id := 1, name := "Guitar", category := none,
                                    description := none, isApproved := true }],
          requests := [], feedback := [], nextRequestId := 1, nextSkillId := 2,
          nextFeedbackId := 1 }
        { name := "guitar", category := none, description := none }).2
      = .ok { id := 1, name := "Guitar", category := none, description := none,
              isApproved := true }) ∧
    ((create_skill
        { users := [], skills := [{ id := 1, name := "Guitar", category := none,
                                    description := none, isApproved := true }],
          requests := [], feedback := [], nextRequestId := 1, nextSkillId := 2,
          nextFeedbackId := 1 }
        { name := "guitar", category := none, description := none }).1
      = { users := [], skills := [{ id := 1, name := "Guitar", category := none,
                                    description := none, isApproved := true }],
          requests := [], feedback := [], nextRequestId := 1, nextSkillId := 2,
          nextFeedbackId := 1 }) ∧
    ((create_skill
        { users := [], skills := [{ id := 1, name := "Guitar", category := none,
                                    description := none, isApproved := true }],
          requests := [], feedback := [], nextRequestId := 1, nextSkillId := 2,
          nextFeedbackId := 1 }
        { name := " guitar ", category := none, description := none }).2
      = .error .integrityError) := by
  refine ⟨?_, ?_, ?_⟩
  · exact (((skill_create_raw_ilike_match
      { users := [], skills := [{ id := 1, name := "Guitar", category := none,
                                  description := none, isApproved := true }],
        requests := [], feedback := [], nextRequestId := 1, nextSkillId := 2,
        nextFeedbackId := 1 }
      { name := "guitar", category := none, description := none }).1
    { id := 1, name := "Guitar", category := none, description := none, isApproved := true }
    (by decide)).1 rfl).1
  · exact (((skill_create_raw_ilike_match
      { users := [], skills := [{ id := 1, name := "Guitar", category := none,
                                  description := none, isApproved := true }],
        requests := [], feedback := [], nextRequestId := 1, nextSkillId := 2,
        nextFeedbackId := 1 }
      { name := "guitar", category := none, description := none }).1
    { id := 1, name := "Guitar", category := none, description := none, isApproved := true }
    (by decide)).1 rfl).2
  · exact (((skill_create_raw_ilike_match
      { users := [], skills := [{ id := 1, name := "Guitar", category := none,
                                  description := none, isApproved := true }],
        requests := [], feedback := [], nextRequestId := 1, nextSkillId := 2,
        nextFeedbackId := 1 }
      { name := " guitar ", category := none, description := none }).2
    (by decide)).2
    ⟨{ id := 1, name := "Guitar", category := none, description := none, isApproved := true },
     by decide, by decide⟩).1

/-- C10 (spec-modelled, the submission route is absent from the
source): feedback submission succeeds only when the referenced request
exists, giver and receiver are each parties of it and differ, and the
rating lies in [1, 5]; a missing request fails NotFound and an
out-of-range rating fails Validation. -/
theorem feedback_submission_contract (db : DB) (rid g rcv : Nat) (rating : Int)
    (c : Option String) :
    (findRequest db rid = none →
      (submitFeedback db rid g rcv rating c).2 = .error .notFound) ∧
    (∀ sr, findRequest db rid = some sr →
      ((submitFeedback db rid g rcv rating c).2.isOk = true ↔
        ((g = sr.requesterId ∨ g = sr.requestedId) ∧
         (rcv = sr.requesterId ∨ rcv = sr.requestedId) ∧
         g ≠ rcv ∧ 1 ≤ rating ∧ rating ≤ 5))) ∧
    (∀ sr, findRequest db rid = some sr → (rating < 1 ∨ 5 < rating) →
      (submitFeedback db rid g rcv rating c).2 = .error .validation) := by
  refine ⟨?_, ?_, ?_⟩
  · intro h
    simp [submitFeedback, h]
  · intro sr h
    have harith : (1 ≤ rating ∧ rating ≤ 5) ↔ ¬(rating < 1 ∨ 5 < rating) := by omega
    by_cases h4 : rating < 1 ∨ 5 < rating <;>
    by_cases hqq : sr.requesterId = sr.requestedId <;>
    by_cases hg1 : g = sr.requesterId <;> by_cases hg2 : g = sr.requestedId <;>
    by_cases hr1 : rcv = sr.requesterId <;> by_cases hr2 : rcv = sr.requestedId <;>
    by_cases hgr : g = rcv <;>
      simp_all [submitFeedback, Except.isOk, Except.toBool]
    all_goals simp [show ¬(rating < 1 ∨ 5 < rating) by omega]
  · intro sr h h4
    simp only [submitFeedback, h]
    split
    · rfl
    · simp [h4]

/-- Witness for `feedback_submission_contract`: Alice (user 1) rates Bob
(user 2) with 5 on their completed request — accepted; rating 6 —
rejected with Validation. -/
theorem feedback_submission_contract_witness :
    ((submitFeedback
        { users := [], skills := [],
          requests := [{ id := 1, requesterId := 1, requestedId := 2, skillOfferedId := 10,
                         skillWantedId := 11, message := none, status := "completed" }],
          feedback := [], nextRequestId := 2, nextSkillId := 1, nextFeedbackId := 1 }
        1 1 2 5 none).2.isOk = true) ∧
    ((submitFeedback
        { users := [], skills := [],
          requests := [{ id := 1, requesterId := 1, requestedId := 2, skillOfferedId := 10,
                         skillWantedId := 11, message := none, status := "completed" }],
          feedback := [], nextRequestId := 2, nextSkillId := 1, nextFeedbackId := 1 }
        1 1 2 6 none).2 = .error .validation) := by
  constructor
  · exact ((feedback_submission_contract
      { users := [], skills := [],
        requests := [{ id := 1, requesterId := 1, requestedId := 2, skillOfferedId := 10,
                       skillWantedId := 11, message := none, status := "completed" }],
        feedback := [], nextRequestId := 2, nextSkillId := 1, nextFeedbackId := 1 }
      1 1 2 5 none).2.1
      { id := 1, requesterId := 1, requestedId := 2, skillOfferedId := 10,
        skillWantedId := 11, message := none, status := "completed" }
      rfl).mpr (by refine ⟨Or.inl rfl, Or.inr rfl, ?_, ?_, ?_⟩ <;> decide)
  · exact (feedback_submission_contract
      { users := [], skills := [],
        requests := [{ id := 1, requesterId := 1, requestedId := 2, skillOfferedId := 10,
                       skillWantedId := 11, message := none, status := "completed" }],
        feedback := [], nextRequestId := 2, nextSkillId := 1, nextFeedbackId := 1 }
      1 1 2 6 none).2.2
      { id := 1, requesterId := 1, requestedId := 2, skillOfferedId := 10,
        skillWantedId := 11, message := none, status := "completed" }
      rfl (by decide)
